import Mathlib

/-!
Shallow embedding of the agentic_ai repository for specification checking.

The repository consists of small educational Python scripts.  The parts
relevant to the claims are:
  * `src/day-2/src/setup.py` : `create_gemini_config` (the spec's
    ConfigFactory.build);
  * `src/day-2/src/dynamic_instructions.py` : `DynamicAgent`
    (`create_agent_for_task`, the spec's TaskDispatcher.resolveInstructions,
    and `handle_request`);
  * `src/openai-agents-sdk/day-1/calculator.py` : `Calculator.divide`;
  * `src/python/projects/password generator/password_generator.py` :
    `generate_password`;
  * `src/python/projects/rock_paper_scissor/main.py` : the user-choice guard
    and the `game_list` indexing.

Python exceptions are modelled with an explicit error type and `Except`;
the process environment is an explicit `Option String` argument; the
external model runner (`Runner.run`) is a function parameter; randomness
(`random.choices`, `random.shuffle`) is an explicit oracle parameter.
Machine integers of Python are unbounded, so `Int`/`Nat` model them
exactly; Python float true division of ints in `divide` is CPython's
`long_true_divide`: the correctly rounded IEEE-754 binary64 quotient
(round to nearest, ties to even, `OverflowError` when the rounded
magnitude reaches 2^1024).  Every finite binary64 value is a dyadic
rational, so the rounded quotient is represented exactly inside `ℚ`.
-/

/-- Python exception values raised by the scripts (only the payload string
of the exception is observable in the programs). -/
inductive PyError
  | valueError (msg : String)
  | zeroDivisionError (msg : String)
  | overflowError (msg : String)
  deriving DecidableEq, Repr

/-- The message printed for an exception, Python's `str(e)`. -/
def PyError.message : PyError → String
  | .valueError m => m
  | .zeroDivisionError m => m
  | .overflowError m => m

/-- `ModelSettings(temperature=..., max_tokens=...)` from `setup.py`. -/
structure ModelSettings where
  temperature : ℚ
  max_tokens : ℤ
  deriving DecidableEq, Repr

/-- `AsyncOpenAI(api_key=..., base_url=...)` from `setup.py`. -/
structure ExternalClient where
  api_key : String
  base_url : String
  deriving DecidableEq, Repr

/-- `OpenAIChatCompletionsModel(model=..., openai_client=...)`. -/
structure ChatModel where
  model : String
  openai_client : ExternalClient
  deriving DecidableEq, Repr

/-- `RunConfig(model=..., model_provider=..., tracing_disabled=...,
model_settings=...)` from `setup.py`. -/
structure RunConfig where
  model : ChatModel
  model_provider : ExternalClient
  tracing_disabled : Bool
  model_settings : ModelSettings
  deriving DecidableEq, Repr

/-- `create_gemini_config(temperature=0.7, max_tokens=1000)` from
`src/day-2/src/setup.py`.  The process environment is passed explicitly:
`env_gemini_api_key` is the value of `os.getenv("GEMINI_API_KEY")`.
Python's `if not gemini_api_key` is true when the variable is absent
(`None`) or the empty string, and then `ValueError("GEMINI_API_KEY not
found in environment variables")` is raised.  No other validation is
performed by the source; the function builds the client, the model and
the run configuration and returns the triple. -/
def create_gemini_config (env_gemini_api_key : Option String)
    (temperature : ℚ := 7/10) (max_tokens : ℤ := 1000) :
    Except PyError (RunConfig × ExternalClient × ChatModel) :=
  match env_gemini_api_key with
  | none => .error (.valueError "GEMINI_API_KEY not found in environment variables")
  | some gemini_api_key =>
    if gemini_api_key = "" then
      .error (.valueError "GEMINI_API_KEY not found in environment variables")
    else
      let external_client : ExternalClient :=
        { api_key := gemini_api_key
          base_url := "https://generativelanguage.googleapis.com/v1beta/openai/" }
      let model : ChatModel :=
        { model := "gemini-2.0-flash", openai_client := external_client }
      let model_settings : ModelSettings :=
        { temperature := temperature, max_tokens := max_tokens }
      .ok ({ model := model
             model_provider := external_client
             tracing_disabled := true
             model_settings := model_settings },
           external_client, model)

/-- An `Agent(name=..., instructions=..., model=...)` value from the agents
SDK, as constructed by `dynamic_instructions.py`. -/
structure Agent where
  name : String
  instructions : String
  model : String
  deriving DecidableEq, Repr

/-- Body of the `email` instruction template of
`DynamicAgent.create_agent_for_task` (the f-string text up to the
`additional_context` substitution point, indentation included). -/
def email_template_head : String :=
  "You are a professional email assistant.\n            Write clear, polite, and business-appropriate emails.\n            Keep responses concise and actionable.\n            "

/-- Body of the `code` instruction template. -/
def code_template_head : String :=
  "You are a senior software engineer.\n            Provide clean, well-commented code with explanations.\n            Focus on best practices and readability.\n            "

/-- Body of the `creative` instruction template. -/
def creative_template_head : String :=
  "You are a creative writing assistant.\n            Be imaginative, engaging, and descriptive.\n            Use vivid language and compelling narratives.\n            "

/-- Body of the `tutor` instruction template. -/
def tutor_template_head : String :=
  "You are a patient and encouraging tutor.\n            Explain concepts step-by-step with examples.\n            Ask clarifying questions to ensure understanding.\n            "

/-- Body of the `analyst` instruction template. -/
def analyst_template_head : String :=
  "You are a data analyst.\n            Provide structured, logical analysis.\n            Use facts and evidence to support conclusions.\n            "

/-- The `instruction_templates` dict literal of
`DynamicAgent.create_agent_for_task`, as an association list in source
order; each value is the fixed template text with `additional_context`
appended verbatim (the f-string places the substitution at the end). -/
def instruction_templates (additional_context : String) : List (String × String) :=
  [ ("email", email_template_head ++ additional_context),
    ("code", code_template_head ++ additional_context),
    ("creative", creative_template_head ++ additional_context),
    ("tutor", tutor_template_head ++ additional_context),
    ("analyst", analyst_template_head ++ additional_context) ]

/-- `DynamicAgent.create_agent_for_task(task_type, additional_context="")`
from `src/day-2/src/dynamic_instructions.py`.  The dict lookup is key
lookup in the association list; a missing key raises
`ValueError(f"Unknown task type: ...")`.  `task_type.title()` on the
single-word keys is `String.capitalize`. -/
def create_agent_for_task (base_name task_type additional_context : String) :
    Except PyError Agent :=
  match (instruction_templates additional_context).lookup task_type with
  | none => .error (.valueError ("Unknown task type: " ++ task_type))
  | some instr =>
    .ok { name := base_name ++ " - " ++ task_type.capitalize
          instructions := instr
          model := "gemini-2.0-flash" }

/-- The spec's `TaskDispatcher.resolveInstructions(task_type, context)`:
the instruction string produced by `create_agent_for_task` (the agent
name plays no role in the instructions). -/
def resolveInstructions (task_type context : String) : Except PyError String :=
  Except.map Agent.instructions (create_agent_for_task "Dynamic Agent" task_type context)

/-- The state held by a `DynamicAgent` object: `self.base_name` and
`self.config` (from `DynamicAgent.__init__`). -/
structure DynamicAgentSt where
  base_name : String
  config : RunConfig
  deriving DecidableEq, Repr

/-- `DynamicAgent.__init__(base_name)`: stores the name and the run
configuration from `create_gemini_config()` (default parameters);
propagates the credential error. -/
def mkDynamicAgent (env_gemini_api_key : Option String) (base_name : String) :
    Except PyError DynamicAgentSt :=
  Except.map (fun t => { base_name := base_name, config := t.1 })
    (create_gemini_config env_gemini_api_key)

/-- `DynamicAgent.create_agent_for_task` in method form: explicit
state passing for the `self` object.  The method body contains no
assignment to `self` or to any global, so the state after the call is
the state before it. -/
def create_agent_method (self : DynamicAgentSt) (task_type additional_context : String) :
    Except PyError Agent × DynamicAgentSt :=
  (create_agent_for_task self.base_name task_type additional_context, self)

/-- `DynamicAgent.handle_request(task_type, user_input, context="")`.
The external `Runner.run` call is the function parameter `run`; its
failure carries the exception text.  The `try` body either returns
`result.final_output` or is caught by `except Exception as e`, which
prints `f"you type wrong task_type ..."` followed by `str(e)` and falls
off the end of the function, returning `None`.  The result is the pair
of the Python return value (`none` models `None`) and the list of
console lines printed. -/
def handle_request (self : DynamicAgentSt) (task_type user_input context : String)
    (run : Agent → String → RunConfig → Except String String) :
    Option String × List String :=
  match create_agent_for_task self.base_name task_type context with
  | .error e => (none, ["you type wrong task_type " ++ e.message])
  | .ok agent =>
    match run agent user_input self.config with
    | .error e => (none, ["you type wrong task_type " ++ e])
    | .ok final_output => (some final_output, [])

/-- The `rock` ASCII-art string of
`src/python/projects/rock_paper_scissor/main.py`. -/
def rock : String :=
  "\n    _______\n---'   ____)\n      (_____)\n      (_____)\n      (____)\n---.__(___)\n"

/-- The `paper` ASCII-art string. -/
def paper : String :=
  "\n    _______\n---'   ____)____\n          ______)\n          _______)\n         _______)\n---.__________)\n"

/-- The `scissors` ASCII-art string. -/
def scissors : String :=
  "\n    _______\n---'   ____)____\n          ______)\n       __________)\n      (____)\n---.__(___)\n"

/-- `game_list=[rock,paper,scissors]`. -/
def game_list : List String := [rock, paper, scissors]

/-- The guard `your_choice<=3 and your_choice>0` admitting the display
`print(game_list[your_choice])`.  `int(input(...))` yields an arbitrary
integer, so the choice is modelled as `ℤ`. -/
def your_choice_guard (your_choice : ℤ) : Bool :=
  decide (your_choice ≤ 3) && decide (your_choice > 0)

/-- Python's precondition for `game_list[c]` not to raise `IndexError`:
`-len(game_list) ≤ c < len(game_list)` (negative indices wrap). -/
def game_list_index_ok (c : ℤ) : Bool :=
  decide (-(game_list.length : ℤ) ≤ c) && decide (c < (game_list.length : ℤ))

/-- Floor of the base-2 logarithm, fuel-based structural recursion so
that kernel evaluation reduces (`floorLog2 n = ⌊log2 n⌋` for `n ≥ 1`;
the fuel `n` bounds the recursion depth `⌊log2 n⌋ + 1`). -/
def log2fuel : ℕ → ℕ → ℕ
  | 0, _ => 0
  | fuel + 1, n => if 2 ≤ n then log2fuel fuel (n / 2) + 1 else 0

/-- Floor of the base-2 logarithm of a positive natural. -/
def floorLog2 (n : ℕ) : ℕ := log2fuel n n

/-- The rounding step of CPython's `long_true_divide` on magnitudes:
for `|a|/|b| > 0` it returns the pair `(m, u)` with `m * 2^u` the
IEEE-754 binary64 rounding (round to nearest, ties to even) of
`|a|/|b|`.  The exponent `e` is fixed so that `2^e ≤ |a|/|b| <
2^(e+1)`; the rounding grid is `2^u` with `u = max (e - 52) (-1074)`
(53-bit significands, subnormals below `2^-1022`); the grid quotient
`N/D` is rounded to the nearest integer `m`, ties to the even one. -/
def f64_round (a b : ℤ) : ℕ × ℤ :=
  let na := a.natAbs
  let nb := b.natAbs
  let e0 : ℤ := (floorLog2 na : ℤ) - (floorLog2 nb : ℤ)
  let e : ℤ := if nb * 2 ^ e0.toNat ≤ na * 2 ^ (-e0).toNat then e0 else e0 - 1
  let u : ℤ := max (e - 52) (-1074)
  let N := na * 2 ^ (-u).toNat
  let D := nb * 2 ^ u.toNat
  let m0 := N / D
  let r := N % D
  let m : ℕ :=
    if D < 2 * r then m0 + 1
    else if 2 * r < D then m0
    else if m0 % 2 = 0 then m0 else m0 + 1
  (m, u)

/-- CPython's `long_true_divide(a, b)` for `b ≠ 0`: the correctly
rounded binary64 value of `a/b` as an exact dyadic rational, or
`OverflowError` when the rounded magnitude `m * 2^u` reaches `2^1024`
(compared in integers as `m * 2^(u+1074) ≥ 2^2098`; `u ≥ -1074`
always).  The sign is applied to the rounded magnitude — round to
nearest is symmetric, so this matches rounding the signed value
(`ℚ` has no negative zero; `-0.0` is the value `0`). -/
def long_true_divide (a b : ℤ) : Except PyError ℚ :=
  if a = 0 then .ok 0
  else
    let s : ℤ := if (a < 0) = (b < 0) then 1 else -1
    let p := f64_round a b
    if 2 ^ 2098 ≤ p.1 * 2 ^ ((p.2 + 1074).toNat) then
      .error (.overflowError "integer division result too large for a float")
    else
      .ok (((s * (p.1 : ℤ) * 2 ^ p.2.toNat : ℤ) : ℚ) / (2 : ℚ) ^ (-p.2).toNat)

/-- `Calculator.divide(a, b)` from
`src/openai-agents-sdk/day-1/calculator.py` (and, sleep aside, also
`AsyncCalculator.divide` from `day-2/async_calculator.py`): Python's
true division `a/b` on ints, which raises `ZeroDivisionError("division
by zero")` when `b == 0` and otherwise produces the binary64 float
computed by `long_true_divide`. -/
def divide (a b : ℤ) : Except PyError ℚ :=
  if b = 0 then .error (.zeroDivisionError "division by zero")
  else long_true_divide a b

/-- A rational is dyadic when it is an integer divided by a power of
two; every finite binary64 value is dyadic. -/
def is_dyadic (q : ℚ) : Prop := ∃ m : ℤ, ∃ k : ℕ, q = (m : ℚ) / 2 ^ k

/-- The `alphabet` pool of
`src/python/projects/password generator/password_generator.py`. -/
def alphabet : List Char :=
  "abcdefghijklmnopqrstuvwxyzABCDEFGHIJKLMNOPQRSTUVWXYZ".toList

/-- The `digits` pool. -/
def digits : List Char := "0123456789".toList

/-- The `special_chars` pool. -/
def special_chars : List Char := "!@#$%^&*()_+-=[]\x7b\x7d|;:,.<>?/".toList

/-- `random.choices(population, k=k)`: `k` independent draws from
`population`, the randomness given by the explicit oracle `pick` (each
draw is an arbitrary index reduced modulo the population size). -/
def choices (population : List Char) (k : ℕ) (pick : ℕ → ℕ) : List Char :=
  (List.range k).map fun i => population.getD (pick i % population.length) ' '

/-- `generate_password(letters, numbers, symbols)`: concatenates the
three `random.choices` draws, applies `random.shuffle` (the oracle
`shuffle`, constrained to a permutation in the theorems), and joins the
characters into a string. -/
def generate_password (letters numbers symbols : ℕ)
    (pickL pickN pickS : ℕ → ℕ) (shuffle : List Char → List Char) : String :=
  String.mk (shuffle
    (choices alphabet letters pickL ++
     choices digits numbers pickN ++
     choices special_chars symbols pickS))

/-- Whether a character is one of the password generator's alphabetic
characters. -/
def is_letter (c : Char) : Bool := decide (c ∈ alphabet)

/-- Whether a character is one of the password generator's digit
characters. -/
def is_digit_char (c : Char) : Bool := decide (c ∈ digits)

/-- Whether a character is one of the password generator's special
characters. -/
def is_symbol_char (c : Char) : Bool := decide (c ∈ special_chars)

/-- C2: `create_gemini_config` fails with the missing-credential error
(`ValueError("GEMINI_API_KEY not found in environment variables")`, the
spec's `MissingCredentialError`) whenever the `GEMINI_API_KEY` environment
variable is absent or the empty string, for every temperature and
max_tokens value. -/
theorem create_gemini_config_missing_credential (temperature : ℚ) (max_tokens : ℤ) :
    create_gemini_config none temperature max_tokens
      = .error (.valueError "GEMINI_API_KEY not found in environment variables") ∧
    create_gemini_config (some "") temperature max_tokens
      = .error (.valueError "GEMINI_API_KEY not found in environment variables") := by
  constructor <;> rfl

/-- C1 counterexample: with the credential present, `create_gemini_config`
succeeds even for `temperature = 2 ∉ [0,1]` and `max_tokens = -5 ≤ 0`:
the source performs no parameter validation, and the out-of-range values
end up in the constructed configuration. -/
theorem create_gemini_config_no_validation_cex :
    (1 : ℚ) < 2 ∧ (-5 : ℤ) ≤ 0 ∧
    ∃ cfg client model,
      create_gemini_config (some "test-key") 2 (-5) = .ok (cfg, client, model) ∧
      cfg.model_settings = { temperature := 2, max_tokens := -5 } := by
  exact ⟨by norm_num, by norm_num, _, _, _, rfl, rfl⟩

/-- C1 (amended): `create_gemini_config` validates only the credential:
whenever the `GEMINI_API_KEY` value is present and non-empty, construction
succeeds for every `temperature` and every `max_tokens`, and the
constructed settings carry those values unvalidated. -/
theorem create_gemini_config_accepts_any_parameters (key : String)
    (hkey : key ≠ "") (temperature : ℚ) (max_tokens : ℤ) :
    ∃ cfg client model,
      create_gemini_config (some key) temperature max_tokens = .ok (cfg, client, model) ∧
      cfg.model_settings.temperature = temperature ∧
      cfg.model_settings.max_tokens = max_tokens := by
  simp only [create_gemini_config, if_neg hkey]
  exact ⟨_, _, _, rfl, rfl, rfl⟩

/-- Witness for C1 (amended) at the key "k", temperature 5 and
max_tokens -3. -/
theorem create_gemini_config_accepts_any_parameters_witness :
    ("k" : String) ≠ "" ∧
    ∃ cfg client model,
      create_gemini_config (some "k") 5 (-3) = .ok (cfg, client, model) ∧
      cfg.model_settings.temperature = 5 ∧
      cfg.model_settings.max_tokens = -3 :=
  ⟨by decide, create_gemini_config_accepts_any_parameters "k" (by decide) 5 (-3)⟩

/-- C3: each of the five task types resolves to its fixed template with
the context appended verbatim, and in particular the `creative` result
for the context "focus on sustainability" contains both the fixed
creative-writing preamble and that literal substring. -/
theorem resolveInstructions_appends_context (context : String) :
    resolveInstructions "email" context = .ok (email_template_head ++ context) ∧
    resolveInstructions "code" context = .ok (code_template_head ++ context) ∧
    resolveInstructions "creative" context = .ok (creative_template_head ++ context) ∧
    resolveInstructions "tutor" context = .ok (tutor_template_head ++ context) ∧
    resolveInstructions "analyst" context = .ok (analyst_template_head ++ context) ∧
    ∃ s, resolveInstructions "creative" "focus on sustainability" = .ok s ∧
      (∃ x y, s = x ++ creative_template_head ++ y) ∧
      (∃ x y, s = x ++ "focus on sustainability" ++ y) := by
  refine ⟨rfl, rfl, rfl, rfl, rfl, creative_template_head ++ "focus on sustainability",
    rfl, ⟨"", "focus on sustainability", ?_⟩, ⟨creative_template_head, "", ?_⟩⟩ <;> rfl

/-- C4: any task type outside the five keys of the template mapping is
rejected with `ValueError(f"Unknown task type: ...")` (the spec's
`UnknownTaskTypeError`), for every base name and context. -/
theorem unknown_task_type_error (base_name context task_type : String)
    (h : task_type ∉ (["email", "code", "creative", "tutor", "analyst"] : List String)) :
    create_agent_for_task base_name task_type context
      = .error (.valueError ("Unknown task type: " ++ task_type)) := by
  simp only [List.mem_cons, List.not_mem_nil, not_or, or_false] at h
  obtain ⟨h1, h2, h3, h4, h5⟩ := h
  have b1 : (task_type == "email") = false := beq_eq_false_iff_ne.mpr h1
  have b2 : (task_type == "code") = false := beq_eq_false_iff_ne.mpr h2
  have b3 : (task_type == "creative") = false := beq_eq_false_iff_ne.mpr h3
  have b4 : (task_type == "tutor") = false := beq_eq_false_iff_ne.mpr h4
  have b5 : (task_type == "analyst") = false := beq_eq_false_iff_ne.mpr h5
  simp [create_agent_for_task, instruction_templates, List.lookup, b1, b2, b3, b4, b5]

/-- Witness for C4 at the task type "unknown_type". -/
theorem unknown_task_type_error_witness :
    ("unknown_type" ∉ (["email", "code", "creative", "tutor", "analyst"] : List String)) ∧
    create_agent_for_task "Versatile Assistant" "unknown_type" ""
      = .error (.valueError "Unknown task type: unknown_type") :=
  ⟨by decide, unknown_task_type_error "Versatile Assistant" "" "unknown_type" (by decide)⟩

/-- C5 counterexample: a remote-call failure is not surfaced unmodified
and is swallowed as a return value.  With a valid task type and a runner
that fails with "RemoteCallError: connection reset", `handle_request`
returns `none` (Python's `None`, a normal value) and its only console
line is the fixed text "you type wrong task_type " with the error
appended — the unmodified error text itself is not among the console
lines, and the failure is misattributed to a wrong task type. -/
theorem handle_request_swallows_remote_failure :
    ∃ st, mkDynamicAgent (some "test-key") "Dynamic Agent" = .ok st ∧
      handle_request st "email" "hi" ""
          (fun _ _ _ => .error "RemoteCallError: connection reset")
        = (none, ["you type wrong task_type RemoteCallError: connection reset"]) ∧
      "RemoteCallError: connection reset"
        ∉ (handle_request st "email" "hi" ""
            (fun _ _ _ => .error "RemoteCallError: connection reset")).2 := by
  refine ⟨_, rfl, rfl, ?_⟩
  decide

/-- C5 (amended): `handle_request` catches every exception, remote-call
failures included; it prints one console line consisting of the fixed
prefix "you type wrong task_type " followed by the error text and
returns `None` as a normal value instead of propagating the error; only
the success path returns the runner's output with no console line. -/
theorem handle_request_catches_and_prints (st : DynamicAgentSt)
    (user_input context e out : String)
    (run : Agent → String → RunConfig → Except String String) :
    handle_request st "creative" user_input context (fun _ _ _ => .error e)
      = (none, ["you type wrong task_type " ++ e]) ∧
    handle_request st "unknown_type" user_input context run
      = (none, ["you type wrong task_type Unknown task type: unknown_type"]) ∧
    handle_request st "creative" user_input context (fun _ _ _ => .ok out)
      = (some out, []) :=
  ⟨rfl, rfl, rfl⟩

/-- C7: `create_agent_for_task` is pure: in method form it leaves the
dispatcher state exactly as it was, and the instruction string it
produces is a function of the task type and the context alone — two runs
from any two dispatcher states agree on it, and both agree with
`resolveInstructions`. -/
theorem create_agent_for_task_pure (s1 s2 : DynamicAgentSt) (task_type context : String) :
    (create_agent_method s1 task_type context).2 = s1 ∧
    Except.map Agent.instructions (create_agent_method s1 task_type context).1
      = resolveInstructions task_type context ∧
    Except.map Agent.instructions (create_agent_method s1 task_type context).1
      = Except.map Agent.instructions (create_agent_method s2 task_type context).1 := by
  have key : ∀ bn : String,
      Except.map Agent.instructions (create_agent_for_task bn task_type context)
        = resolveInstructions task_type context := by
    intro bn
    unfold resolveInstructions create_agent_for_task
    cases (instruction_templates context).lookup task_type <;> rfl
  exact ⟨rfl, key s1.base_name, (key s1.base_name).trans (key s2.base_name).symm⟩

/-- C9: the guard `your_choice<=3 and your_choice>0` does not establish
the bounds precondition of `game_list[your_choice]` over the 3-element
`game_list`: choices 1 and 2 are admitted and in bounds, choice 3 is
admitted by the guard yet out of bounds, and choice 0 (a valid rock
choice, in bounds) is not admitted, so the rock art is never displayed. -/
theorem rps_guard_unsound :
    your_choice_guard 1 = true ∧ game_list_index_ok 1 = true ∧
    your_choice_guard 2 = true ∧ game_list_index_ok 2 = true ∧
    your_choice_guard 3 = true ∧ game_list_index_ok 3 = false ∧
    your_choice_guard 0 = false ∧ game_list_index_ok 0 = true := by
  decide

theorem long_true_divide_cases (a b : ℤ) :
    (∃ q, long_true_divide a b = .ok q ∧ is_dyadic q) ∨
    long_true_divide a b
      = .error (.overflowError "integer division result too large for a float") := by
  by_cases ha : a = 0
  · exact Or.inl ⟨0, by simp [long_true_divide, ha], 0, 0, by norm_num⟩
  · have hT : long_true_divide a b =
        if 2 ^ 2098 ≤ (f64_round a b).1 * 2 ^ (((f64_round a b).2 + 1074).toNat) then
          .error (.overflowError "integer division result too large for a float")
        else
          .ok ((((if (a < 0) = (b < 0) then (1 : ℤ) else -1) * ((f64_round a b).1 : ℤ)
              * 2 ^ (f64_round a b).2.toNat : ℤ) : ℚ)
            / (2 : ℚ) ^ (-(f64_round a b).2).toNat) := by
      unfold long_true_divide
      rw [if_neg ha]
    by_cases hov :
        2 ^ 2098 ≤ (f64_round a b).1 * 2 ^ (((f64_round a b).2 + 1074).toNat)
    · rw [hT, if_pos hov]
      exact Or.inr rfl
    · rw [hT, if_neg hov]
      exact Or.inl ⟨_, rfl,
        (if (a < 0) = (b < 0) then (1 : ℤ) else -1) * ((f64_round a b).1 : ℤ)
          * 2 ^ (f64_round a b).2.toNat,
        (-(f64_round a b).2).toNat, rfl⟩

set_option maxRecDepth 100000 in
/-- C10 counterexample: at a = 1, b = 3 ≠ 0 the program does not return
the exact quotient 1/3: Python float division yields the binary64
rounding 6004799503160661/2^54 of 1/3, which differs from 1/3. -/
theorem divide_inexact_cex :
    (3 : ℤ) ≠ 0 ∧
    divide 1 3 = .ok ((6004799503160661 : ℚ) / 2 ^ 54) ∧
    divide 1 3 ≠ .ok ((1 : ℚ) / 3) := by
  have h : divide 1 3 = .ok ((6004799503160661 : ℚ) / 2 ^ 54) := rfl
  refine ⟨by decide, h, ?_⟩
  rw [h]
  intro hc
  injection hc with hq
  have hne : (6004799503160661 : ℚ) / 2 ^ 54 ≠ (1 : ℚ) / 3 := by norm_num
  exact hne hq

/-- C10 (amended): for b = 0, `Calculator.divide(a, b)` fails with
`ZeroDivisionError` rather than returning a value; for b ≠ 0 the
division-by-zero failure is unreachable, and any value returned is the
binary64 float of a/b — a dyadic rational, so the quotient is exact
only when a/b is itself representable (not at a = 1, b = 3, where
6004799503160661/2^54 ≠ 1/3 is returned). -/
theorem divide_rounded_division (a b : ℤ) :
    divide a 0 = .error (.zeroDivisionError "division by zero") ∧
    (b ≠ 0 → divide a b ≠ .error (.zeroDivisionError "division by zero")) ∧
    (b ≠ 0 → ∀ q : ℚ, divide a b = .ok q → is_dyadic q) := by
  refine ⟨rfl, fun hb => ?_, fun hb q hq => ?_⟩
  · unfold divide
    rw [if_neg hb]
    rcases long_true_divide_cases a b with ⟨q, hq, -⟩ | h
    · rw [hq]
      intro hc
      cases hc
    · rw [h]
      intro hc
      injection hc with hmsg
      cases hmsg
  · unfold divide at hq
    rw [if_neg hb] at hq
    rcases long_true_divide_cases a b with ⟨q2, hq2, hd⟩ | h
    · rw [hq2] at hq
      injection hq with hqq
      rwa [← hqq]
    · rw [h] at hq
      cases hq

/-- Witness for C10 (amended) at a = 1, b = 3 and at a = 1, b = 0. -/
theorem divide_rounded_division_witness :
    ((3 : ℤ) ≠ 0) ∧
    divide 1 0 = .error (.zeroDivisionError "division by zero") ∧
    divide 1 3 ≠ .error (.zeroDivisionError "division by zero") ∧
    (∀ q : ℚ, divide 1 3 = .ok q → is_dyadic q) :=
  ⟨by decide, (divide_rounded_division 1 0).1,
   (divide_rounded_division 1 3).2.1 (by decide),
   (divide_rounded_division 1 3).2.2 (by decide)⟩

theorem choices_length (population : List Char) (k : ℕ) (pick : ℕ → ℕ) :
    (choices population k pick).length = k := by
  simp [choices]

theorem choices_mem (population : List Char) (hpop : population ≠ []) (k : ℕ)
    (pick : ℕ → ℕ) : ∀ c ∈ choices population k pick, c ∈ population := by
  intro c hc
  simp only [choices, List.mem_map, List.mem_range] at hc
  obtain ⟨i, -, rfl⟩ := hc
  have hlt : pick i % population.length < population.length :=
    Nat.mod_lt _ (List.length_pos.mpr hpop)
  rw [List.getD_eq_getElem _ _ hlt]
  exact List.getElem_mem hlt

theorem countP_choices_all (p : Char → Bool) (population : List Char)
    (hpop : population ≠ []) (hall : ∀ c ∈ population, p c = true) (k : ℕ)
    (pick : ℕ → ℕ) : List.countP p (choices population k pick) = k := by
  have h := List.countP_eq_length.mpr
    (fun c hc => hall c (choices_mem population hpop k pick c hc))
  rw [h, choices_length]

theorem countP_choices_none (p : Char → Bool) (population : List Char)
    (hpop : population ≠ []) (hall : ∀ c ∈ population, p c = false) (k : ℕ)
    (pick : ℕ → ℕ) : List.countP p (choices population k pick) = 0 :=
  List.countP_eq_zero.mpr
    (fun c hc => by simp [hall c (choices_mem population hpop k pick c hc)])

theorem alphabet_ne_nil : alphabet ≠ [] := by decide

theorem digits_ne_nil : digits ≠ [] := by decide

theorem special_chars_ne_nil : special_chars ≠ [] := by decide

theorem alphabet_all_letter : ∀ c ∈ alphabet, is_letter c = true := by decide

theorem alphabet_no_digit : ∀ c ∈ alphabet, is_digit_char c = false := by decide

theorem alphabet_no_symbol : ∀ c ∈ alphabet, is_symbol_char c = false := by decide

theorem digits_all_digit : ∀ c ∈ digits, is_digit_char c = true := by decide

theorem digits_no_letter : ∀ c ∈ digits, is_letter c = false := by decide

theorem digits_no_symbol : ∀ c ∈ digits, is_symbol_char c = false := by decide

theorem special_all_symbol : ∀ c ∈ special_chars, is_symbol_char c = true := by decide

theorem special_no_letter : ∀ c ∈ special_chars, is_letter c = false := by decide

theorem special_no_digit : ∀ c ∈ special_chars, is_digit_char c = false := by decide

/-- C8: for all non-negative counts and any randomness, as long as the
shuffle is a permutation (which `random.shuffle` is), `generate_password`
returns a string of length exactly `letters + numbers + symbols`
containing exactly `letters` alphabetic characters, exactly `numbers`
digits and exactly `symbols` special characters. -/
theorem generate_password_counts (letters numbers symbols : ℕ)
    (pickL pickN pickS : ℕ → ℕ) (shuffle : List Char → List Char)
    (hshuffle : ∀ l : List Char, (shuffle l).Perm l) :
    (generate_password letters numbers symbols pickL pickN pickS shuffle).length
        = letters + numbers + symbols ∧
    List.countP is_letter
        (generate_password letters numbers symbols pickL pickN pickS shuffle).data
      = letters ∧
    List.countP is_digit_char
        (generate_password letters numbers symbols pickL pickN pickS shuffle).data
      = numbers ∧
    List.countP is_symbol_char
        (generate_password letters numbers symbols pickL pickN pickS shuffle).data
      = symbols := by
  have hperm := hshuffle (choices alphabet letters pickL ++
    choices digits numbers pickN ++ choices special_chars symbols pickS)
  refine ⟨?_, ?_, ?_, ?_⟩
  · show (shuffle (choices alphabet letters pickL ++
        choices digits numbers pickN ++ choices special_chars symbols pickS)).length
      = letters + numbers + symbols
    rw [hperm.length_eq, List.length_append, List.length_append,
      choices_length, choices_length, choices_length]
  · show List.countP is_letter (shuffle (choices alphabet letters pickL ++
        choices digits numbers pickN ++ choices special_chars symbols pickS)) = letters
    rw [hperm.countP_eq, List.countP_append, List.countP_append,
      countP_choices_all is_letter alphabet alphabet_ne_nil alphabet_all_letter,
      countP_choices_none is_letter digits digits_ne_nil digits_no_letter,
      countP_choices_none is_letter special_chars special_chars_ne_nil special_no_letter]
    omega
  · show List.countP is_digit_char (shuffle (choices alphabet letters pickL ++
        choices digits numbers pickN ++ choices special_chars symbols pickS)) = numbers
    rw [hperm.countP_eq, List.countP_append, List.countP_append,
      countP_choices_none is_digit_char alphabet alphabet_ne_nil alphabet_no_digit,
      countP_choices_all is_digit_char digits digits_ne_nil digits_all_digit,
      countP_choices_none is_digit_char special_chars special_chars_ne_nil special_no_digit]
    omega
  · show List.countP is_symbol_char (shuffle (choices alphabet letters pickL ++
        choices digits numbers pickN ++ choices special_chars symbols pickS)) = symbols
    rw [hperm.countP_eq, List.countP_append, List.countP_append,
      countP_choices_none is_symbol_char alphabet alphabet_ne_nil alphabet_no_symbol,
      countP_choices_none is_symbol_char digits digits_ne_nil digits_no_symbol,
      countP_choices_all is_symbol_char special_chars special_chars_ne_nil special_all_symbol]
    omega

/-- Witness for C8 with 2 letters, 1 digit, 1 symbol, the identity
random stream and list reversal as the shuffle permutation. -/
theorem generate_password_counts_witness :
    (∀ l : List Char, (List.reverse l).Perm l) ∧
    ((generate_password 2 1 1 id id id List.reverse).length = 2 + 1 + 1 ∧
     List.countP is_letter (generate_password 2 1 1 id id id List.reverse).data = 2 ∧
     List.countP is_digit_char (generate_password 2 1 1 id id id List.reverse).data = 1 ∧
     List.countP is_symbol_char (generate_password 2 1 1 id id id List.reverse).data = 1) :=
  ⟨fun l => List.reverse_perm l,
   generate_password_counts 2 1 1 id id id List.reverse (fun l => List.reverse_perm l)⟩
